import Mathlib

/-! Package `transactions` of ach-demo (`pkg/transactions.go`).

A shallow embedding of package `transactions` and theorems about it.

The package is a thin client of the external library `github.com/moov-io/ach`.
The library's code is not part of the repository, so the embedding treats it as
follows.

* The library's record types (`EntryDetail`, `Addenda99`, `FileHeader`,
  `BatchHeader`) are Lean structures carrying the exported fields.
* The library's constructors, its two formatting setters (`SetRDFI`,
  `SetTraceNumber`) and its three fallible steps (`batch.Create`,
  `file.Create`, `writer.Write`) are fields of a parameter `AchLibrary`; every
  theorem holds for every library.
* Calls of the three fallible steps are recorded, in order, in a call log that
  `BuildACH` returns next to its Go results.

Go `int` values (amounts, batch numbers) are only copied and printed, never
computed with, so they are represented by `Int`.
-/

namespace Transactions

/-! ## Go values -/

/-- The Go `error` values that occur: an error produced outside the package (by
the library or the operating system), and the value of
`fmt.Errorf("...%w", err)`, which carries its message and the wrapped error. -/
inductive GoError where
  | external (msg : String)
  | wrapError (msg : String) (err : GoError)
  deriving DecidableEq, Repr

/-- Method `Error()` of a Go error. -/
def GoError.Error : GoError → String
  | .external msg => msg
  | .wrapError msg _ => msg

/-- Result of `errors.Unwrap`. -/
def GoError.Unwrap : GoError → Option GoError
  | .external _ => none
  | .wrapError _ err => some err

/-- The call `fmt.Errorf(pfx + "%w", err)`. -/
def Errorf (pfx : String) (err : GoError) : GoError :=
  .wrapError (pfx ++ err.Error) err

/-- The verb `%d` of `fmt` applied to an `int`. -/
def decimal : Int → String
  | .ofNat n => Nat.repr n
  | .negSucc n => "-" ++ Nat.repr (n + 1)

/-- A reading of the clock (`time.Time`), as far as the layouts used here look
at it. -/
structure Time where
  Year : Nat
  Month : Nat
  Day : Nat
  Hour : Nat
  Minute : Nat
  Second : Nat
  deriving DecidableEq, Repr

/-- Decimal rendering in at least two digits, zero filled. -/
def pad2 (n : Nat) : String :=
  if n < 10 then "0" ++ Nat.repr n else Nat.repr n

/-- Scanner of `time.Time.Format` for the layout chunks `06`, `01`, `02`, `15`,
`04` and `05`, the only ones in the layouts `"060102"` and `"1504"` used by
`BuildACH`; any other character is copied. -/
def formatChunks (t : Time) : List Char → String
  | '0' :: '6' :: rest => pad2 (t.Year % 100) ++ formatChunks t rest
  | '0' :: '1' :: rest => pad2 t.Month ++ formatChunks t rest
  | '0' :: '2' :: rest => pad2 t.Day ++ formatChunks t rest
  | '1' :: '5' :: rest => pad2 t.Hour ++ formatChunks t rest
  | '0' :: '4' :: rest => pad2 t.Minute ++ formatChunks t rest
  | '0' :: '5' :: rest => pad2 t.Second ++ formatChunks t rest
  | c :: rest => String.singleton c ++ formatChunks t rest
  | [] => ""

/-- Method `Format` of `time.Time`. -/
def Time.Format (t : Time) (layout : String) : String :=
  formatChunks t layout.toList

/-! ## Records of the library -/

/-- Record `ach.Addenda99` (return addenda). -/
structure Addenda99 where
  ID : String
  TypeCode : String
  ReturnCode : String
  OriginalTrace : String
  DateOfDeath : String
  OriginalDFI : String
  AddendaInformation : String
  TraceNumber : String
  deriving DecidableEq, Repr

/-- Record `ach.EntryDetail`. `Addenda99` is a pointer in Go, `none` is nil. -/
structure EntryDetail where
  ID : String
  TransactionCode : Int
  RDFIIdentification : String
  CheckDigit : String
  DFIAccountNumber : String
  Amount : Int
  IdentificationNumber : String
  IndividualName : String
  DiscretionaryData : String
  AddendaRecordIndicator : Int
  TraceNumber : String
  Addenda99 : Option Addenda99
  Category : String
  deriving DecidableEq, Repr

/-- Record `ach.FileHeader`. -/
structure FileHeader where
  ID : String
  ImmediateDestination : String
  ImmediateOrigin : String
  FileCreationDate : String
  FileCreationTime : String
  FileIDModifier : String
  ImmediateDestinationName : String
  ImmediateOriginName : String
  ReferenceCode : String
  deriving DecidableEq, Repr

/-- Record `ach.BatchHeader`. -/
structure BatchHeader where
  ID : String
  ServiceClassCode : Int
  CompanyName : String
  CompanyDiscretionaryData : String
  CompanyIdentification : String
  StandardEntryClassCode : String
  CompanyEntryDescription : String
  CompanyDescriptiveDate : String
  EffectiveEntryDate : String
  SettlementDate : String
  OriginatorStatusCode : Int
  ODFIIdentification : String
  BatchNumber : Int
  deriving DecidableEq, Repr

/-- A batch as this package sees it: its header and the entries added to it.
Control records and other fields the library derives are internal to it. -/
structure Batch where
  Header : BatchHeader
  Entries : List EntryDetail
  deriving DecidableEq, Repr

/-- A file as this package sees it: its header and the batches added to it. -/
structure File where
  Header : FileHeader
  Batches : List Batch
  deriving DecidableEq, Repr

/-- Library constant `ach.CheckingCredit`. -/
def CheckingCredit : Int := 22

/-- Library constant `ach.CheckingDebit`. -/
def CheckingDebit : Int := 27

/-- Library constant `ach.GLCredit`. -/
def GLCredit : Int := 42

/-- Library constant `ach.MixedDebitsAndCredits`. -/
def MixedDebitsAndCredits : Int := 200

/-- Library constant `ach.CategoryReturn`. -/
def CategoryReturn : String := "Return"

/-- Library constant `ach.PPD`. -/
def PPD : String := "PPD"

/-- The part of `github.com/moov-io/ach` whose results this package cannot
see through: the values its constructors return, how `SetRDFI` splits its
argument into routing number and check digit, how `SetTraceNumber` formats
its two arguments, and the three steps that may fail. -/
structure AchLibrary where
  NewEntryDetail : EntryDetail
  NewAddenda99 : Addenda99
  NewFileHeader : FileHeader
  NewBatchHeader : BatchHeader
  rdfiFields : String → String × String
  traceNumber : String → Int → String
  batchCreate : Batch → Except GoError Batch
  fileCreate : File → Except GoError File
  writerWrite : File → Except GoError String

/-- Library method `EntryDetail.SetOriginalTraceNumber`: stores its argument
in `IdentificationNumber`. -/
def EntryDetail.SetOriginalTraceNumber (ed : EntryDetail) (s : String) : EntryDetail :=
  { ed with IdentificationNumber := s }

/-- Library method `EntryDetail.SetReceivingCompany`: stores its argument in
`IndividualName`. -/
def EntryDetail.SetReceivingCompany (ed : EntryDetail) (s : String) : EntryDetail :=
  { ed with IndividualName := s }

/-- Library method `EntryDetail.SetRDFI`: writes the routing number and the
check digit the library derives from its argument. -/
def EntryDetail.SetRDFI (L : AchLibrary) (ed : EntryDetail) (rdfi : String) : EntryDetail :=
  { ed with RDFIIdentification := (L.rdfiFields rdfi).1, CheckDigit := (L.rdfiFields rdfi).2 }

/-- Library method `EntryDetail.SetTraceNumber`: writes the trace number the
library forms from the ODFI identification and the sequence number. -/
def EntryDetail.SetTraceNumber (L : AchLibrary) (ed : EntryDetail) (ODFIIdentification : String)
    (seq : Int) : EntryDetail :=
  { ed with TraceNumber := L.traceNumber ODFIIdentification seq }

/-- Library function `ach.NewBatchPPD`: a batch with the given header and no
entry. -/
def NewBatchPPD (bh : BatchHeader) : Batch :=
  { Header := bh, Entries := [] }

/-- Library method `Batch.AddEntry`: appends the entry. -/
def Batch.AddEntry (batch : Batch) (entry : EntryDetail) : Batch :=
  { batch with Entries := batch.Entries ++ [entry] }

/-- Library function `ach.NewFile`: a file with a fresh header and no batch. -/
def NewFile (L : AchLibrary) : File :=
  { Header := L.NewFileHeader, Batches := [] }

/-- Library method `File.SetHeader`. -/
def File.SetHeader (file : File) (fh : FileHeader) : File :=
  { file with Header := fh }

/-- Library method `File.AddBatch`: appends the batch. -/
def File.AddBatch (file : File) (batch : Batch) : File :=
  { file with Batches := file.Batches ++ [batch] }

/-! ## The package's types (lines 16-43, 54-80) -/

structure ACHData where
  TransactionsDate : String
  ReferenceCode : String
  Destination : String
  DestinationName : String
  Origin : String
  OriginName : String
  StandardEntryClassCode : String
  BatchNumber : Int
  deriving DecidableEq, Repr

structure Originator where
  CompanyName : String
  CompanyDescription : String
  Identification : String
  BatchNumber : Int
  deriving DecidableEq, Repr

structure BaseTransaction where
  DepositoryAccountNumber : String
  ReceivingCompany : String
  OriginalTraceNumber : String
  Amount : Int
  deriving DecidableEq, Repr

structure CreditTransaction where
  BaseTransaction : BaseTransaction
  deriving DecidableEq, Repr

structure DebitTransaction where
  BaseTransaction : BaseTransaction
  deriving DecidableEq, Repr

structure ChargebackTransaction where
  BaseTransaction : BaseTransaction
  ReturnCode : String
  OriginalTrace : String
  AddendaInformation : String
  OriginalDepositoryInstitution : String
  deriving DecidableEq, Repr

/-- Interface `Transaction`: the four types of the package with a method
`BuildACHEntry`. -/
inductive Transaction where
  | base (b : BaseTransaction)
  | credit (c : CreditTransaction)
  | debit (d : DebitTransaction)
  | chargeback (c : ChargebackTransaction)
  deriving DecidableEq, Repr

/-! ## `BuildACHEntry` (lines 45-94) -/

def BaseTransaction.BuildACHEntry (L : AchLibrary) (b : BaseTransaction) : EntryDetail :=
  let entry := L.NewEntryDetail
  let entry := { entry with DFIAccountNumber := b.DepositoryAccountNumber }
  let entry := { entry with Amount := b.Amount }
  let entry := entry.SetOriginalTraceNumber b.OriginalTraceNumber
  let entry := entry.SetReceivingCompany b.ReceivingCompany
  entry

def CreditTransaction.BuildACHEntry (L : AchLibrary) (c : CreditTransaction) : EntryDetail :=
  let entry := c.BaseTransaction.BuildACHEntry L
  let entry := { entry with TransactionCode := CheckingCredit }
  entry

def DebitTransaction.BuildACHEntry (L : AchLibrary) (d : DebitTransaction) : EntryDetail :=
  let entry := d.BaseTransaction.BuildACHEntry L
  let entry := { entry with TransactionCode := CheckingDebit }
  entry

def ChargebackTransaction.BuildACHEntry (L : AchLibrary) (c : ChargebackTransaction) :
    EntryDetail :=
  let entry := c.BaseTransaction.BuildACHEntry L
  let entry := { entry with Category := CategoryReturn }
  let entry := { entry with TransactionCode := GLCredit }
  let entry := { entry with AddendaRecordIndicator := 1 }
  let addenda := L.NewAddenda99
  let addenda := { addenda with ReturnCode := c.ReturnCode }
  let addenda := { addenda with OriginalTrace := c.OriginalTrace }
  let addenda := { addenda with AddendaInformation := c.AddendaInformation }
  let addenda := { addenda with OriginalDFI := c.OriginalDepositoryInstitution }
  let entry := { entry with Addenda99 := some addenda }
  entry

/-- Method `BuildACHEntry` called through the interface. -/
def Transaction.BuildACHEntry (L : AchLibrary) : Transaction → EntryDetail
  | .base b => b.BuildACHEntry L
  | .credit c => c.BuildACHEntry L
  | .debit d => d.BuildACHEntry L
  | .chargeback c => c.BuildACHEntry L

/-! ## `String` (lines 96-128)

`fmt.Fprintf(&b, ...)` appends to the builder; `%s` of a `BaseTransaction`
prints its `String()`. -/

def BaseTransaction.String (t : BaseTransaction) : String :=
  let b := ""
  let b := b ++ ("Depository AccountNumber: " ++ t.DepositoryAccountNumber ++ "\n")
  let b := b ++ ("Receiving Company: " ++ t.ReceivingCompany ++ "\n")
  let b := b ++ ("Original Trace Number: " ++ t.OriginalTraceNumber ++ "\n")
  let b := b ++ ("Amount: " ++ decimal t.Amount ++ "\n")
  b

def CreditTransaction.String (c : CreditTransaction) : String :=
  let b := ""
  let b := b ++ ("Type: " ++ "CREDIT" ++ "\n")
  let b := b ++ c.BaseTransaction.String
  b

def DebitTransaction.String (c : DebitTransaction) : String :=
  let b := ""
  let b := b ++ ("Type: " ++ "DEBIT" ++ "\n")
  let b := b ++ c.BaseTransaction.String
  b

def ChargebackTransaction.String (c : ChargebackTransaction) : String :=
  let b := ""
  let b := b ++ ("Type: " ++ "CHARGEBACK" ++ "\n")
  let b := b ++ c.BaseTransaction.String
  let b := b ++ ("Return Code: " ++ c.ReturnCode ++ "\n")
  let b := b ++ ("Original Trace: " ++ c.OriginalTrace ++ "\n")
  let b := b ++ ("Addenda Information: " ++ c.AddendaInformation ++ "\n")
  let b := b ++ ("Original Depository Institution: " ++ c.OriginalDepositoryInstitution ++ "\n")
  b

/-- Method `String` called through the interface, as `fmt.Println(t)` does. -/
def Transaction.String : Transaction → String
  | .base b => b.String
  | .credit c => c.String
  | .debit d => d.String
  | .chargeback c => c.String

/-! ## `BuildACH` (lines 130-181) -/

/-- One call of a fallible library step, with the object it was handed. -/
inductive LibCall where
  | batchCreate (batch : Batch)
  | fileCreate (file : File)
  | writerWrite (file : File)
  deriving DecidableEq, Repr

/-- The two Go results of `BuildACH` (`err = none` is a nil error) and the calls
of fallible library steps it made, in order. -/
structure BuildResult where
  out : String
  err : Option GoError
  calls : List LibCall
  deriving DecidableEq, Repr

/-- Lines 135-142: the file header, from the clock reading `ts` of line 131. -/
def assembleFileHeader (L : AchLibrary) (ts : Time) (meta : ACHData) : FileHeader :=
  let fh := L.NewFileHeader
  let fh := { fh with ImmediateDestination := meta.Destination }
  let fh := { fh with ImmediateOrigin := meta.Origin }
  let fh := { fh with FileCreationDate := ts.Format "060102" }
  let fh := { fh with FileCreationTime := ts.Format "1504" }
  let fh := { fh with ImmediateDestinationName := meta.DestinationName }
  let fh := { fh with ImmediateOriginName := meta.OriginName }
  let fh := { fh with ReferenceCode := meta.ReferenceCode }
  fh

/-- Lines 144-153: the batch header. -/
def assembleBatchHeader (L : AchLibrary) (fh : FileHeader) (meta : ACHData)
    (originator : Originator) : BatchHeader :=
  let bh := L.NewBatchHeader
  let bh := { bh with ServiceClassCode := MixedDebitsAndCredits }
  let bh := { bh with CompanyName := originator.CompanyName }
  let bh := { bh with CompanyIdentification := fh.ImmediateOrigin }
  let bh := { bh with StandardEntryClassCode := meta.StandardEntryClassCode }
  let bh := { bh with CompanyEntryDescription := originator.CompanyName }
  let bh := { bh with CompanyDescriptiveDate := meta.TransactionsDate }
  let bh := { bh with EffectiveEntryDate := meta.TransactionsDate }
  let bh := { bh with ODFIIdentification := originator.Identification }
  let bh := { bh with BatchNumber := meta.BatchNumber }
  bh

/-- Lines 157-162: the iterations of the loop from index `i` on, over the
transactions still to visit. -/
def addEntries (L : AchLibrary) (meta : ACHData) (bh : BatchHeader) :
    Nat → List Transaction → Batch → Batch
  | _, [], batch => batch
  | i, t :: rest, batch =>
    let entry := t.BuildACHEntry L
    let entry := entry.SetRDFI L meta.Destination
    let entry := entry.SetTraceNumber L bh.ODFIIdentification (Int.ofNat i)
    let batch := batch.AddEntry entry
    addEntries L meta bh (i + 1) rest batch

/-- Lines 144-162: the batch on which `Create` is called. -/
def assembleBatch (L : AchLibrary) (fh : FileHeader) (meta : ACHData) (originator : Originator)
    (transactions : List Transaction) : Batch :=
  let bh := assembleBatchHeader L fh meta originator
  let batch := NewBatchPPD bh
  addEntries L meta bh 0 transactions batch

/-- Function `BuildACH`. `ts` is the value of `now()` on line 131, where `now`
is the package variable of line 14. -/
def BuildACH (L : AchLibrary) (ts : Time) (meta : ACHData) (originator : Originator)
    (transactions : List Transaction) : BuildResult :=
  let file := NewFile L
  let fh := assembleFileHeader L ts meta
  let batch := assembleBatch L fh meta originator transactions
  match L.batchCreate batch with
  | .error err =>
    { out := "", err := some (Errorf "unexpected error building batch: " err),
      calls := [.batchCreate batch] }
  | .ok batch' =>
    let file := file.SetHeader fh
    let file := file.AddBatch batch'
    match L.fileCreate file with
    | .error err =>
      { out := "", err := some (Errorf "unexpected error building file: " err),
        calls := [.batchCreate batch, .fileCreate file] }
    | .ok file' =>
      match L.writerWrite file' with
      | .error err =>
        { out := "", err := some (Errorf "could not write ach: " err),
          calls := [.batchCreate batch, .fileCreate file, .writerWrite file'] }
      | .ok buf =>
        { out := buf, err := none,
          calls := [.batchCreate batch, .fileCreate file, .writerWrite file'] }

/-! ## The drivers (lines 183-327) -/

/-- The two operations of package `os` that `dumpACH` uses: `os.Create(path)`
and `WriteString` on the file created at `path`. -/
structure FileSystem where
  Create : String → Except GoError Unit
  WriteString : String → String → Except GoError Unit

/-- How a driver ends: it returns to its caller, or the process exits. -/
inductive Outcome where
  | returned
  | exited (code : Int)
  deriving DecidableEq, Repr

/-- What a run of a driver does: the text printed on standard output, the
messages given to package `log`, and how it ends. -/
structure Run where
  stdout : List String
  logged : List String
  outcome : Outcome
  deriving DecidableEq, Repr

/-- Function `dumpACH`: the messages it logs and the error it returns. -/
def dumpACH (fs : FileSystem) (ach path : String) : List String × Option GoError :=
  match fs.Create path with
  | .error err => (["Could not write file " ++ path ++ "\n"], some err)
  | .ok _ =>
    match fs.WriteString path ach with
    | .error err => (["Error at writing file " ++ path ++ "\n"], some err)
    | .ok _ => ([], none)

def SendTransactions (L : AchLibrary) (ts : Time) (fs : FileSystem) : Run :=
  let meta : ACHData :=
    { Destination := "123456780", DestinationName := "DEST BANK", Origin := "123456789",
      OriginName := "ORIG BANK", TransactionsDate := "231229", ReferenceCode := "1",
      StandardEntryClassCode := PPD, BatchNumber := 4964830 }
  let originator : Originator :=
    { CompanyName := "COMPANYONE", CompanyDescription := "VNDR PAY",
      Identification := "123456780", BatchNumber := 0 }
  let transactions : List Transaction :=
    [ .credit ⟨⟨"1111111111", "CompOne", "8058467", 234430⟩⟩,
      .debit ⟨⟨"1111111112", "CompTwo", "8058468", 100000⟩⟩,
      .credit ⟨⟨"1111111113", "CompThree", "8058469", 200000⟩⟩,
      .credit ⟨⟨"1111111114", "CompFour", "8058470", 500000⟩⟩,
      .credit ⟨⟨"1111111115", "CompFive", "8058471", 800000⟩⟩,
      .debit ⟨⟨"1111111116", "CompSix", "8058472", 107000⟩⟩,
      .credit ⟨⟨"1111111117", "CompSeven", "8058473", 103400⟩⟩ ]
  -- fmt.Println("Transactions:") and fmt.Println(t) for each transaction
  let stdout := ["Transactions:" ++ "\n"]
  let stdout := stdout ++ transactions.map (fun t => t.String ++ "\n")
  let r := BuildACH L ts meta originator transactions
  match r.err with
  | some err =>
    -- log.Fatalln(err): logs the error, then os.Exit(1)
    { stdout := stdout, logged := [err.Error ++ "\n"], outcome := .exited 1 }
  | none =>
    let stdout := stdout ++ [r.out ++ "\n"]
    -- the error dumpACH returns is dropped
    let d := dumpACH fs r.out "transactions.ach"
    { stdout := stdout, logged := d.1, outcome := .returned }

def ChargeBackTransactions (L : AchLibrary) (ts : Time) (fs : FileSystem) : Run :=
  let meta : ACHData :=
    { Destination := "123456780", DestinationName := "DEST BANK", Origin := "123456789",
      OriginName := "ORIG BANK", TransactionsDate := "231229", ReferenceCode := "1",
      StandardEntryClassCode := PPD, BatchNumber := 4964830 }
  let originator : Originator :=
    { CompanyName := "COMPANYONE", CompanyDescription := "VNDR PAY",
      Identification := "123456780", BatchNumber := 0 }
  let transactions : List Transaction :=
    [ .chargeback
        { BaseTransaction := ⟨"1111111117", "CompEight", "8058474", 103400⟩,
          ReturnCode := "R10", OriginalTrace := "1111111111",
          AddendaInformation := "Authorization Revoked",
          OriginalDepositoryInstitution := "123456780" } ]
  -- fmt.Println("Chargebacks:") and fmt.Println(t) for each transaction
  let stdout := ["Chargebacks:" ++ "\n"]
  let stdout := stdout ++ transactions.map (fun t => t.String ++ "\n")
  let r := BuildACH L ts meta originator transactions
  match r.err with
  | some err =>
    -- log.Fatalln(err): logs the error, then os.Exit(1)
    { stdout := stdout, logged := [err.Error ++ "\n"], outcome := .exited 1 }
  | none =>
    let stdout := stdout ++ [r.out ++ "\n"]
    -- the error dumpACH returns is dropped
    let d := dumpACH fs r.out "chargebacks.ach"
    { stdout := stdout, logged := d.1, outcome := .returned }

/-! ## Sample inputs -/

/-- A library all of whose steps succeed; the writer emits the creation date and
time of the header, the batch count and the trace numbers. -/
def sampleLibrary : AchLibrary where
  NewEntryDetail :=
    { ID := "", TransactionCode := 0, RDFIIdentification := "", CheckDigit := "",
      DFIAccountNumber := "", Amount := 0, IdentificationNumber := "", IndividualName := "",
      DiscretionaryData := "", AddendaRecordIndicator := 0, TraceNumber := "",
      Addenda99 := none, Category := "Forward" }
  NewAddenda99 :=
    { ID := "", TypeCode := "99", ReturnCode := "", OriginalTrace := "", DateOfDeath := "",
      OriginalDFI := "", AddendaInformation := "", TraceNumber := "" }
  NewFileHeader :=
    { ID := "", ImmediateDestination := "", ImmediateOrigin := "", FileCreationDate := "",
      FileCreationTime := "", FileIDModifier := "A", ImmediateDestinationName := "",
      ImmediateOriginName := "", ReferenceCode := "" }
  NewBatchHeader :=
    { ID := "", ServiceClassCode := 0, CompanyName := "", CompanyDiscretionaryData := "",
      CompanyIdentification := "", StandardEntryClassCode := "", CompanyEntryDescription := "",
      CompanyDescriptiveDate := "", EffectiveEntryDate := "", SettlementDate := "",
      OriginatorStatusCode := 0, ODFIIdentification := "", BatchNumber := 1 }
  rdfiFields := fun s => (String.mk (s.toList.take 8), String.mk ((s.toList.drop 8).take 1))
  traceNumber := fun odfi seq => odfi ++ "/" ++ decimal seq
  batchCreate := fun b => .ok b
  fileCreate := fun f => .ok f
  writerWrite := fun f =>
    .ok (f.Header.FileCreationDate ++ f.Header.FileCreationTime ++
      String.join (f.Batches.map (fun b => String.join (b.Entries.map (fun e =>
        " " ++ e.TraceNumber)))))

/-- A file system on which nothing can be created. -/
def readOnlyFileSystem : FileSystem where
  Create := fun path => .error (.external ("open " ++ path ++ ": permission denied"))
  WriteString := fun _ _ => .ok ()

/-- A file system on which files can be created but not written. -/
def fullFileSystem : FileSystem where
  Create := fun _ => .ok ()
  WriteString := fun path _ => .error (.external ("write " ++ path ++ ": no space left on device"))

/-- A clock reading: 29 December 2023, 10:30:00. -/
def sampleTime : Time :=
  { Year := 2023, Month := 12, Day := 29, Hour := 10, Minute := 30, Second := 0 }

/-- A later clock reading: 30 December 2023, 10:30:00. -/
def laterTime : Time :=
  { Year := 2023, Month := 12, Day := 30, Hour := 10, Minute := 30, Second := 0 }

/-- A `meta` value. -/
def sampleMeta : ACHData :=
  { Destination := "123456780", DestinationName := "DEST BANK", Origin := "123456789",
    OriginName := "ORIG BANK", TransactionsDate := "231229", ReferenceCode := "1",
    StandardEntryClassCode := PPD, BatchNumber := 4964830 }

/-- An originator. -/
def sampleOriginator : Originator :=
  { CompanyName := "COMPANYONE", CompanyDescription := "VNDR PAY",
    Identification := "123456780", BatchNumber := 0 }

/-- A credit followed by a chargeback. -/
def sampleTransactions : List Transaction :=
  [ .credit ⟨⟨"1111111111", "CompOne", "8058467", 234430⟩⟩,
    .chargeback
      { BaseTransaction := ⟨"1111111117", "CompEight", "8058474", -5⟩,
        ReturnCode := "R10", OriginalTrace := "1111111111",
        AddendaInformation := "Authorization Revoked",
        OriginalDepositoryInstitution := "987654320" } ]

/-- A library whose `batch.Create` fails. -/
def batchFailingLibrary : AchLibrary :=
  { sampleLibrary with batchCreate := fun _ => .error (.external "bad batch") }

/-- A library whose `file.Create` fails. -/
def fileFailingLibrary : AchLibrary :=
  { sampleLibrary with fileCreate := fun _ => .error (.external "bad file") }

/-- A library whose writer fails. -/
def writeFailingLibrary : AchLibrary :=
  { sampleLibrary with writerWrite := fun _ => .error (.external "bad write") }

/-- A clock reading of the same minute as `sampleTime`, thirty seconds and a
century later. -/
def sameMinuteTime : Time :=
  { Year := 2123, Month := 12, Day := 29, Hour := 10, Minute := 30, Second := 30 }

/-- An originator with the name and identification of `sampleOriginator` and
another description and batch number. -/
def otherOriginator : Originator :=
  { CompanyName := "COMPANYONE", CompanyDescription := "PAYROLL",
    Identification := "123456780", BatchNumber := 77 }

/-! ## The loop of `BuildACH` -/

theorem addEntries_Header (L : AchLibrary) (meta : ACHData) (bh : BatchHeader) (i : Nat)
    (transactions : List Transaction) (batch : Batch) :
    (addEntries L meta bh i transactions batch).Header = batch.Header := by
  induction transactions generalizing i batch with
  | nil => rfl
  | cons t rest ih => simp only [addEntries, ih, Batch.AddEntry]

theorem addEntries_Entries (L : AchLibrary) (meta : ACHData) (bh : BatchHeader) (i : Nat)
    (transactions : List Transaction) (batch : Batch) :
    (addEntries L meta bh i transactions batch).Entries =
      batch.Entries ++ (transactions.enumFrom i).map (fun p =>
        ((p.2.BuildACHEntry L).SetRDFI L meta.Destination).SetTraceNumber L
          bh.ODFIIdentification (Int.ofNat p.1)) := by
  induction transactions generalizing i batch with
  | nil => simp [addEntries]
  | cons t rest ih =>
    simp only [addEntries, ih, Batch.AddEntry, List.enumFrom_cons, List.map_cons,
      List.append_assoc, List.singleton_append]

theorem assembleBatch_Header (L : AchLibrary) (fh : FileHeader) (meta : ACHData)
    (originator : Originator) (transactions : List Transaction) :
    (assembleBatch L fh meta originator transactions).Header =
      assembleBatchHeader L fh meta originator := by
  simp only [assembleBatch, addEntries_Header, NewBatchPPD]

theorem assembleBatch_Entries (L : AchLibrary) (fh : FileHeader) (meta : ACHData)
    (originator : Originator) (transactions : List Transaction) :
    (assembleBatch L fh meta originator transactions).Entries =
      (transactions.enumFrom 0).map (fun p =>
        ((p.2.BuildACHEntry L).SetRDFI L meta.Destination).SetTraceNumber L
          originator.Identification (Int.ofNat p.1)) := by
  simp only [assembleBatch, addEntries_Entries, NewBatchPPD, List.nil_append]
  rfl

theorem assembleBatch_Entries_length (L : AchLibrary) (fh : FileHeader) (meta : ACHData)
    (originator : Originator) (transactions : List Transaction) :
    (assembleBatch L fh meta originator transactions).Entries.length = transactions.length := by
  simp [assembleBatch_Entries]

theorem assembleBatch_Entries_getElem? (L : AchLibrary) (fh : FileHeader) (meta : ACHData)
    (originator : Originator) (transactions : List Transaction) (i : Nat) :
    (assembleBatch L fh meta originator transactions).Entries[i]? =
      transactions[i]?.map (fun t =>
        ((t.BuildACHEntry L).SetRDFI L meta.Destination).SetTraceNumber L
          originator.Identification (Int.ofNat i)) := by
  simp only [assembleBatch_Entries, List.getElem?_map, List.getElem?_enumFrom, Option.map_map]
  cases transactions[i]? <;> simp

theorem assembleBatch_fileHeader_irrelevant (L : AchLibrary) (fh fh' : FileHeader)
    (meta : ACHData) (originator : Originator) (transactions : List Transaction)
    (h : fh.ImmediateOrigin = fh'.ImmediateOrigin) :
    assembleBatch L fh meta originator transactions =
      assembleBatch L fh' meta originator transactions := by
  simp only [assembleBatch, assembleBatchHeader, h]

theorem BuildACH_calls_head (L : AchLibrary) (ts : Time) (meta : ACHData)
    (originator : Originator) (transactions : List Transaction) :
    (BuildACH L ts meta originator transactions).calls.head? =
      some (.batchCreate
        (assembleBatch L (assembleFileHeader L ts meta) meta originator transactions)) := by
  unfold BuildACH
  simp only []
  split
  · rfl
  · split
    · rfl
    · split <;> rfl

theorem BuildACH_calls_fileCreate (L : AchLibrary) (ts : Time) (meta : ACHData)
    (originator : Originator) (transactions : List Transaction) (f : File)
    (hf : LibCall.fileCreate f ∈ (BuildACH L ts meta originator transactions).calls) :
    ∃ b, L.batchCreate
        (assembleBatch L (assembleFileHeader L ts meta) meta originator transactions) = .ok b ∧
      f = { Header := assembleFileHeader L ts meta, Batches := [b] } := by
  unfold BuildACH at hf
  simp only [NewFile, File.SetHeader, File.AddBatch, List.nil_append] at hf
  split at hf
  · simp at hf
  · rename_i b hb
    refine ⟨b, hb, ?_⟩
    split at hf
    · simpa using hf
    · split at hf <;> simpa using hf

theorem BuildACH_calls_of_batchCreate_ok (L : AchLibrary) (ts : Time) (meta : ACHData)
    (originator : Originator) (transactions : List Transaction) (b : Batch)
    (hb : L.batchCreate
      (assembleBatch L (assembleFileHeader L ts meta) meta originator transactions) = .ok b) :
    LibCall.fileCreate { Header := assembleFileHeader L ts meta, Batches := [b] } ∈
      (BuildACH L ts meta originator transactions).calls := by
  unfold BuildACH
  simp only [NewFile, File.SetHeader, File.AddBatch, List.nil_append, hb]
  split
  · simp
  · split <;> simp

/-! ## Results of `BuildACH` -/

/-- C1: `BuildACH` follows the three library steps in the order `batch.Create`,
`file.Create`, `writer.Write`. If a step fails, the result is the empty string
with an error that wraps the error of that step behind the prefix of the step,
and no later step is called; if all three succeed, the error is nil and the
string is the one the writer produced. The error is non-nil exactly when one
of the steps performed fails, and then the string is empty. -/
theorem BuildACH_error_contract (L : AchLibrary) (ts : Time) (meta : ACHData)
    (originator : Originator) (transactions : List Transaction) :
    let r := BuildACH L ts meta originator transactions
    let fh := assembleFileHeader L ts meta
    let batch := assembleBatch L fh meta originator transactions
    let fileOf : Batch → File := fun b => { Header := fh, Batches := [b] }
    (∀ e, L.batchCreate batch = .error e →
      r = { out := "",
            err := some (.wrapError ("unexpected error building batch: " ++ e.Error) e),
            calls := [.batchCreate batch] }) ∧
    (∀ b e, L.batchCreate batch = .ok b → L.fileCreate (fileOf b) = .error e →
      r = { out := "",
            err := some (.wrapError ("unexpected error building file: " ++ e.Error) e),
            calls := [.batchCreate batch, .fileCreate (fileOf b)] }) ∧
    (∀ b f e, L.batchCreate batch = .ok b → L.fileCreate (fileOf b) = .ok f →
      L.writerWrite f = .error e →
      r = { out := "",
            err := some (.wrapError ("could not write ach: " ++ e.Error) e),
            calls := [.batchCreate batch, .fileCreate (fileOf b), .writerWrite f] }) ∧
    (∀ b f buf, L.batchCreate batch = .ok b → L.fileCreate (fileOf b) = .ok f →
      L.writerWrite f = .ok buf →
      r = { out := buf, err := none,
            calls := [.batchCreate batch, .fileCreate (fileOf b), .writerWrite f] }) ∧
    (r.err ≠ none ↔
      ((∃ e, L.batchCreate batch = .error e) ∨
        (∃ b e, L.batchCreate batch = .ok b ∧ L.fileCreate (fileOf b) = .error e) ∨
        (∃ b f e, L.batchCreate batch = .ok b ∧ L.fileCreate (fileOf b) = .ok f ∧
          L.writerWrite f = .error e))) ∧
    (r.err ≠ none → r.out = "") := by
  intro r fh batch fileOf
  have hr : r = BuildACH L ts meta originator transactions := rfl
  unfold BuildACH at hr
  simp only [NewFile, File.SetHeader, File.AddBatch, List.nil_append] at hr
  change r = (match L.batchCreate batch with
    | .error err => _
    | .ok b => match L.fileCreate (fileOf b) with
      | .error err => _
      | .ok f => match L.writerWrite f with
        | .error err => _
        | .ok buf => _) at hr
  cases h1 : L.batchCreate batch with
  | error e1 =>
    simp only [h1] at hr
    refine ⟨?_, ?_, ?_, ?_, ?_, ?_⟩
    · intro e h; cases h; exact hr
    · intro b e h; cases h
    · intro b f e h; cases h
    · intro b f buf h; cases h
    · rw [hr]; exact ⟨fun _ => Or.inl ⟨e1, rfl⟩, fun _ => by simp⟩
    · intro _; rw [hr]
  | ok b =>
    simp only [h1] at hr
    cases h2 : L.fileCreate (fileOf b) with
    | error e2 =>
      simp only [h2] at hr
      refine ⟨?_, ?_, ?_, ?_, ?_, ?_⟩
      · intro e h; cases h
      · intro b' e h h'; cases h; rw [h2] at h'; cases h'; exact hr
      · intro b' f e h h'; cases h; rw [h2] at h'; cases h'
      · intro b' f buf h h'; cases h; rw [h2] at h'; cases h'
      · rw [hr]; exact ⟨fun _ => Or.inr (Or.inl ⟨b, e2, rfl, h2⟩), fun _ => by simp⟩
      · intro _; rw [hr]
    | ok f =>
      simp only [h2] at hr
      cases h3 : L.writerWrite f with
      | error e3 =>
        simp only [h3] at hr
        refine ⟨?_, ?_, ?_, ?_, ?_, ?_⟩
        · intro e h; cases h
        · intro b' e h h'; cases h; rw [h2] at h'; cases h'
        · intro b' f' e h h' hw; cases h; rw [h2] at h'; cases h'
          rw [h3] at hw; cases hw; exact hr
        · intro b' f' buf h h' hw; cases h; rw [h2] at h'; cases h'
          rw [h3] at hw; cases hw
        · rw [hr]; exact ⟨fun _ => Or.inr (Or.inr ⟨b, f, e3, rfl, h2, h3⟩), fun _ => by simp⟩
        · intro _; rw [hr]
      | ok buf =>
        simp only [h3] at hr
        refine ⟨?_, ?_, ?_, ?_, ?_, ?_⟩
        · intro e h; cases h
        · intro b' e h h'; cases h; rw [h2] at h'; cases h'
        · intro b' f' e h h' hw; cases h; rw [h2] at h'; cases h'
          rw [h3] at hw; cases hw
        · intro b' f' buf' h h' hw; cases h; rw [h2] at h'; cases h'
          rw [h3] at hw; cases hw; exact hr
        · rw [hr]
          refine ⟨fun h => absurd rfl h, ?_⟩
          rintro (⟨e, h⟩ | ⟨b', e, h, h'⟩ | ⟨b', f', e, h, h', hw⟩)
          · cases h
          · cases h; rw [h2] at h'; cases h'
          · cases h; rw [h2] at h'; cases h'; rw [h3] at hw; cases hw
        · intro h; rw [hr] at h; exact absurd rfl h

/-- Witness of C1 on a library whose `file.Create` fails. -/
theorem BuildACH_error_contract_witness :
    BuildACH fileFailingLibrary sampleTime sampleMeta sampleOriginator sampleTransactions =
      { out := "",
        err := some (.wrapError "unexpected error building file: bad file"
          (.external "bad file")),
        calls :=
          [ .batchCreate (assembleBatch fileFailingLibrary
              (assembleFileHeader fileFailingLibrary sampleTime sampleMeta) sampleMeta
              sampleOriginator sampleTransactions),
            .fileCreate
              { Header := assembleFileHeader fileFailingLibrary sampleTime sampleMeta,
                Batches := [assembleBatch fileFailingLibrary
                  (assembleFileHeader fileFailingLibrary sampleTime sampleMeta) sampleMeta
                  sampleOriginator sampleTransactions] } ] } :=
  (BuildACH_error_contract fileFailingLibrary sampleTime sampleMeta sampleOriginator
    sampleTransactions).2.1 _ (.external "bad file") rfl rfl

/-- C3: the first library step `BuildACH` calls is `batch.Create`, on a batch
that was given exactly one entry per transaction, in input order: the entry at
position `i` is the entry `BuildACHEntry` returned for transaction `i`, with the
RDFI fields and the trace number set by the loop and every other field as
returned. Every file handed to `file.Create` holds exactly one batch, the one
`batch.Create` returned for that batch, and such a file is handed over
whenever `batch.Create` succeeds. -/
theorem BuildACH_one_batch_entry_per_transaction (L : AchLibrary) (ts : Time) (meta : ACHData)
    (originator : Originator) (transactions : List Transaction) :
    let r := BuildACH L ts meta originator transactions
    let fh := assembleFileHeader L ts meta
    let batch := assembleBatch L fh meta originator transactions
    r.calls.head? = some (.batchCreate batch) ∧
    batch.Entries.length = transactions.length ∧
    (∀ i (h : i < transactions.length),
      batch.Entries[i]? = some
        { transactions[i].BuildACHEntry L with
          RDFIIdentification := (L.rdfiFields meta.Destination).1
          CheckDigit := (L.rdfiFields meta.Destination).2
          TraceNumber := L.traceNumber originator.Identification (Int.ofNat i) }) ∧
    (∀ i, transactions.length ≤ i → batch.Entries[i]? = none) ∧
    (∀ f, LibCall.fileCreate f ∈ r.calls →
      ∃ b, L.batchCreate batch = .ok b ∧ f.Batches = [b] ∧ f.Header = fh) ∧
    (∀ b, L.batchCreate batch = .ok b →
      LibCall.fileCreate { Header := fh, Batches := [b] } ∈ r.calls) := by
  intro r fh batch
  refine ⟨BuildACH_calls_head L ts meta originator transactions,
    assembleBatch_Entries_length L fh meta originator transactions, ?_, ?_, ?_,
    BuildACH_calls_of_batchCreate_ok L ts meta originator transactions⟩
  · intro i h
    rw [assembleBatch_Entries_getElem?, List.getElem?_eq_getElem h]
    rfl
  · intro i h
    rw [assembleBatch_Entries_getElem?, List.getElem?_eq_none h]
    rfl
  · intro f hf
    obtain ⟨b, hb, hf⟩ := BuildACH_calls_fileCreate L ts meta originator transactions f hf
    exact ⟨b, hb, by rw [hf], by rw [hf]⟩

/-- Witness of C3 on a credit followed by a chargeback. -/
theorem BuildACH_one_batch_entry_per_transaction_witness :
    (assembleBatch sampleLibrary (assembleFileHeader sampleLibrary sampleTime sampleMeta)
        sampleMeta sampleOriginator sampleTransactions).Entries[1]? = some
      { Transaction.BuildACHEntry sampleLibrary (.chargeback
          { BaseTransaction := ⟨"1111111117", "CompEight", "8058474", -5⟩,
            ReturnCode := "R10", OriginalTrace := "1111111111",
            AddendaInformation := "Authorization Revoked",
            OriginalDepositoryInstitution := "987654320" }) with
        RDFIIdentification := "12345678"
        CheckDigit := "0"
        TraceNumber := "123456780/1" } :=
  (BuildACH_one_batch_entry_per_transaction sampleLibrary sampleTime sampleMeta sampleOriginator
    sampleTransactions).2.2.1 1 (by decide)

/-- C8: in the batch `BuildACH` hands to `batch.Create`, the trace number of the
entry at position `i` is the one the library forms from the pair
`(originator.Identification, i)`: the sequence numbers are 0, 1, ..., n-1 in
input order and pairwise different, so the trace numbers are pairwise
different whenever the library's formatting tells these pairs apart; the
trace numbers do not depend on the transactions, only on their number. -/
theorem BuildACH_trace_numbers (L : AchLibrary) (ts : Time) (meta : ACHData)
    (originator : Originator) (transactions : List Transaction) :
    let r := BuildACH L ts meta originator transactions
    let fh := assembleFileHeader L ts meta
    let batch := assembleBatch L fh meta originator transactions
    r.calls.head? = some (.batchCreate batch) ∧
    batch.Entries.map (fun e => e.TraceNumber) =
      ((List.range transactions.length).map Int.ofNat).map
        (fun seq => L.traceNumber originator.Identification seq) ∧
    (∀ i, i < transactions.length → ∃ e, batch.Entries[i]? = some e ∧
      e.TraceNumber = L.traceNumber originator.Identification (Int.ofNat i)) ∧
    ((List.range transactions.length).map Int.ofNat).Nodup ∧
    ((∀ i, i < transactions.length → ∀ j, j < transactions.length →
        L.traceNumber originator.Identification (Int.ofNat i) =
          L.traceNumber originator.Identification (Int.ofNat j) → i = j) →
      (batch.Entries.map (fun e => e.TraceNumber)).Nodup) ∧
    (∀ transactions' : List Transaction, transactions'.length = transactions.length →
      (assembleBatch L fh meta originator transactions').Entries.map (fun e => e.TraceNumber) =
        batch.Entries.map (fun e => e.TraceNumber)) := by
  intro r fh batch
  have hmap : ∀ txs : List Transaction,
      (assembleBatch L fh meta originator txs).Entries.map (fun e => e.TraceNumber) =
        ((List.range txs.length).map Int.ofNat).map
          (fun seq => L.traceNumber originator.Identification seq) := by
    intro txs
    rw [assembleBatch_Entries, List.map_map, List.map_map, List.range_eq_range',
      ← List.enumFrom_map_fst 0 txs, List.map_map]
    rfl
  refine ⟨BuildACH_calls_head L ts meta originator transactions, hmap transactions, ?_, ?_, ?_,
    ?_⟩
  · intro i h
    refine ⟨((transactions[i].BuildACHEntry L).SetRDFI L meta.Destination).SetTraceNumber L
      originator.Identification (Int.ofNat i), ?_, rfl⟩
    rw [assembleBatch_Entries_getElem?, List.getElem?_eq_getElem h]
    rfl
  · exact (List.nodup_range _).map_on (fun x _ y _ hxy => Int.ofNat.inj hxy)
  · intro hinj
    rw [hmap transactions, List.map_map]
    refine (List.nodup_range _).map_on ?_
    intro x hx y hy hxy
    exact hinj x (List.mem_range.mp hx) y (List.mem_range.mp hy) hxy
  · intro txs hlen
    rw [hmap txs, hmap transactions, hlen]

/-- Witness of C8: the two entries of the sample batch get different trace
numbers from the sample library. -/
theorem BuildACH_trace_numbers_witness :
    ((assembleBatch sampleLibrary (assembleFileHeader sampleLibrary sampleTime sampleMeta)
        sampleMeta sampleOriginator sampleTransactions).Entries.map
      (fun e => e.TraceNumber)).Nodup :=
  (BuildACH_trace_numbers sampleLibrary sampleTime sampleMeta sampleOriginator
    sampleTransactions).2.2.2.2.1 (by decide)

/-- C10: every entry of the batch `BuildACH` hands to `batch.Create` has the RDFI
fields the library derives from `meta.Destination`, the value that is also the
`ImmediateDestination` of the file header, whatever the transaction is. The
`OriginalDepositoryInstitution` of a chargeback is the `OriginalDFI` of the
addenda record of its entry, and replacing it changes nothing else in the
entry. -/
theorem BuildACH_rdfi_from_destination (L : AchLibrary) (ts : Time) (meta : ACHData)
    (originator : Originator) (transactions : List Transaction) (c : ChargebackTransaction)
    (odi : String) :
    let r := BuildACH L ts meta originator transactions
    let fh := assembleFileHeader L ts meta
    let batch := assembleBatch L fh meta originator transactions
    r.calls.head? = some (.batchCreate batch) ∧
    fh.ImmediateDestination = meta.Destination ∧
    (∀ e ∈ batch.Entries, e.RDFIIdentification = (L.rdfiFields meta.Destination).1 ∧
      e.CheckDigit = (L.rdfiFields meta.Destination).2) ∧
    (c.BuildACHEntry L).Addenda99.map (fun a => a.OriginalDFI) =
      some c.OriginalDepositoryInstitution ∧
    ChargebackTransaction.BuildACHEntry L { c with OriginalDepositoryInstitution := odi } =
      { c.BuildACHEntry L with
        Addenda99 := (c.BuildACHEntry L).Addenda99.map (fun a => { a with OriginalDFI := odi }) } ∧
    (∀ i,
      (assembleBatch L fh meta originator
        (transactions.set i (.chargeback { c with OriginalDepositoryInstitution := odi }))
        ).Entries.map (fun e => (e.RDFIIdentification, e.CheckDigit)) =
      (assembleBatch L fh meta originator (transactions.set i (.chargeback c))).Entries.map
        (fun e => (e.RDFIIdentification, e.CheckDigit))) := by
  intro r fh batch
  have hmap : ∀ txs : List Transaction,
      (assembleBatch L fh meta originator txs).Entries.map
          (fun e => (e.RDFIIdentification, e.CheckDigit)) =
        List.replicate txs.length
          ((L.rdfiFields meta.Destination).1, (L.rdfiFields meta.Destination).2) := by
    intro txs
    rw [assembleBatch_Entries, List.map_map]
    apply List.ext_getElem
    · simp
    · intro i h1 h2
      simp [EntryDetail.SetRDFI, EntryDetail.SetTraceNumber]
  refine ⟨BuildACH_calls_head L ts meta originator transactions, rfl, ?_, rfl, rfl, ?_⟩
  · intro e he
    rw [assembleBatch_Entries] at he
    obtain ⟨p, -, rfl⟩ := List.mem_map.mp he
    exact ⟨rfl, rfl⟩
  · intro i
    rw [hmap, hmap, List.length_set, List.length_set]

/-! ## What the result of `BuildACH` depends on -/

/-- C7, as stated, fails: two calls with the same library, meta, originator and
transactions, one day apart on the clock, assemble different file headers and
return different strings. -/
theorem BuildACH_clock_counterexample :
    (assembleFileHeader sampleLibrary sampleTime sampleMeta).FileCreationDate = "231229" ∧
    (assembleFileHeader sampleLibrary laterTime sampleMeta).FileCreationDate = "231230" ∧
    (BuildACH sampleLibrary sampleTime sampleMeta sampleOriginator sampleTransactions).out =
      "2312291030 123456780/0 123456780/1" ∧
    (BuildACH sampleLibrary laterTime sampleMeta sampleOriginator sampleTransactions).out =
      "2312301030 123456780/0 123456780/1" ∧
    BuildACH sampleLibrary sampleTime sampleMeta sampleOriginator sampleTransactions ≠
      BuildACH sampleLibrary laterTime sampleMeta sampleOriginator sampleTransactions := by
  decide

/-- C7, amended: besides its three arguments `BuildACH` reads the clock. The
batch it assembles (header and entries) is the same for every clock reading;
the file header differs between two readings only in `FileCreationDate` and
`FileCreationTime`; and two calls with the same arguments whose clock readings
format to the same date (layout `060102`) and time (layout `1504`) have the
same result and make the same library calls. -/
theorem BuildACH_function_of_arguments_and_clock (L : AchLibrary) (ts ts' : Time)
    (meta : ACHData) (originator : Originator) (transactions : List Transaction)
    (hDate : ts.Format "060102" = ts'.Format "060102")
    (hTime : ts.Format "1504" = ts'.Format "1504") :
    BuildACH L ts meta originator transactions = BuildACH L ts' meta originator transactions ∧
    assembleFileHeader L ts meta = assembleFileHeader L ts' meta ∧
    (∀ t t' : Time,
      assembleBatch L (assembleFileHeader L t meta) meta originator transactions =
        assembleBatch L (assembleFileHeader L t' meta) meta originator transactions) ∧
    (∀ t t' : Time,
      assembleFileHeader L t meta =
        { assembleFileHeader L t' meta with
          FileCreationDate := t.Format "060102"
          FileCreationTime := t.Format "1504" }) := by
  have hfh : assembleFileHeader L ts meta = assembleFileHeader L ts' meta := by
    simp only [assembleFileHeader, hDate, hTime]
  refine ⟨?_, hfh, ?_, ?_⟩
  · unfold BuildACH
    rw [hfh]
  · intro t t'
    exact assembleBatch_fileHeader_irrelevant L _ _ meta originator transactions rfl
  · intro t t'
    rfl

/-- Witness of the amended C7: two clock readings in the same minute, thirty
seconds and a century apart. -/
theorem BuildACH_function_of_arguments_and_clock_witness :
    sampleTime ≠ sameMinuteTime ∧
    BuildACH sampleLibrary sampleTime sampleMeta sampleOriginator sampleTransactions =
      BuildACH sampleLibrary sameMinuteTime sampleMeta sampleOriginator sampleTransactions :=
  ⟨by decide,
    (BuildACH_function_of_arguments_and_clock sampleLibrary sampleTime sameMinuteTime sampleMeta
      sampleOriginator sampleTransactions (by decide) (by decide)).1⟩

/-- C9: `BuildACH` does not look at `CompanyDescription` and `BatchNumber` of the
originator: for two originators with the same `CompanyName` and
`Identification`, and the same library, clock reading, meta and transactions,
the result, the library calls, the batch header and the entries are the same.
The batch header has `CompanyEntryDescription = originator.CompanyName`,
`BatchNumber = meta.BatchNumber` and `CompanyIdentification = meta.Origin`. -/
theorem BuildACH_ignores_description_and_batch_number (L : AchLibrary) (ts : Time)
    (meta : ACHData) (originator originator' : Originator) (transactions : List Transaction)
    (hName : originator.CompanyName = originator'.CompanyName)
    (hId : originator.Identification = originator'.Identification) :
    BuildACH L ts meta originator transactions = BuildACH L ts meta originator' transactions ∧
    assembleBatch L (assembleFileHeader L ts meta) meta originator transactions =
      assembleBatch L (assembleFileHeader L ts meta) meta originator' transactions ∧
    (assembleBatch L (assembleFileHeader L ts meta) meta originator transactions).Header =
      assembleBatchHeader L (assembleFileHeader L ts meta) meta originator ∧
    (assembleBatchHeader L (assembleFileHeader L ts meta) meta originator
      ).CompanyEntryDescription = originator.CompanyName ∧
    (assembleBatchHeader L (assembleFileHeader L ts meta) meta originator).BatchNumber =
      meta.BatchNumber ∧
    (assembleBatchHeader L (assembleFileHeader L ts meta) meta originator
      ).CompanyIdentification = meta.Origin := by
  have hb : ∀ fh : FileHeader, assembleBatch L fh meta originator transactions =
      assembleBatch L fh meta originator' transactions := by
    intro fh
    simp only [assembleBatch, assembleBatchHeader, hName, hId]
  refine ⟨?_, hb _, assembleBatch_Header L _ meta originator transactions, rfl, rfl, rfl⟩
  unfold BuildACH
  simp only [hb]

/-- Witness of C9: two originators that differ in description and batch number. -/
theorem BuildACH_ignores_description_and_batch_number_witness :
    sampleOriginator ≠ otherOriginator ∧
    BuildACH sampleLibrary sampleTime sampleMeta sampleOriginator sampleTransactions =
      BuildACH sampleLibrary sampleTime sampleMeta otherOriginator sampleTransactions :=
  ⟨by decide,
    (BuildACH_ignores_description_and_batch_number sampleLibrary sampleTime sampleMeta
      sampleOriginator otherOriginator sampleTransactions rfl rfl).1⟩

/-! ## The drivers -/

/-- C2, evaluated where it fails: with a library all of whose steps succeed,
`SendTransactions` on a file system that refuses to create the output file, and
`ChargeBackTransactions` on one that refuses the write, each log the message of
`dumpACH` and return to their caller; the process is not terminated. When
`BuildACH` fails, the process does exit with status 1. -/
theorem drivers_return_after_failed_dump :
    dumpACH readOnlyFileSystem "text" "transactions.ach" =
      (["Could not write file transactions.ach\n"],
        some (.external "open transactions.ach: permission denied")) ∧
    (SendTransactions sampleLibrary sampleTime readOnlyFileSystem).logged =
      ["Could not write file transactions.ach\n"] ∧
    (SendTransactions sampleLibrary sampleTime readOnlyFileSystem).outcome = .returned ∧
    (ChargeBackTransactions sampleLibrary sampleTime fullFileSystem).logged =
      ["Error at writing file chargebacks.ach\n"] ∧
    (ChargeBackTransactions sampleLibrary sampleTime fullFileSystem).outcome = .returned ∧
    (SendTransactions batchFailingLibrary sampleTime readOnlyFileSystem).outcome = .exited 1 ∧
    (ChargeBackTransactions writeFailingLibrary sampleTime fullFileSystem).outcome =
      .exited 1 := by
  decide

/-! ## Entries built from transactions -/

/-- C5: `BaseTransaction.BuildACHEntry` accepts every base transaction and copies
its four fields unchanged into a fresh entry (account number, amount, the
original trace number into the identification number, the receiving company
into the individual name), leaving every other field as the constructor gave
it; the credit and the debit variant return that base entry with only
`TransactionCode` replaced, by `CheckingCredit` and `CheckingDebit`. -/
theorem BuildACHEntry_base_credit_debit (L : AchLibrary) (b : BaseTransaction) :
    b.BuildACHEntry L =
        { L.NewEntryDetail with
          DFIAccountNumber := b.DepositoryAccountNumber
          Amount := b.Amount
          IdentificationNumber := b.OriginalTraceNumber
          IndividualName := b.ReceivingCompany } ∧
      (b.BuildACHEntry L).DFIAccountNumber = b.DepositoryAccountNumber ∧
      (b.BuildACHEntry L).Amount = b.Amount ∧
      (b.BuildACHEntry L).IdentificationNumber = b.OriginalTraceNumber ∧
      (b.BuildACHEntry L).IndividualName = b.ReceivingCompany ∧
      CreditTransaction.BuildACHEntry L { BaseTransaction := b } =
        { b.BuildACHEntry L with TransactionCode := CheckingCredit } ∧
      DebitTransaction.BuildACHEntry L { BaseTransaction := b } =
        { b.BuildACHEntry L with TransactionCode := CheckingDebit } := by
  refine ⟨rfl, rfl, rfl, rfl, rfl, rfl, rfl⟩

/-- C4: the entry of a chargeback has category `Return`, transaction code
`GLCredit`, addenda record indicator 1 and an `Addenda99` record that is the
fresh one with `ReturnCode`, `OriginalTrace`, `AddendaInformation` and
`OriginalDFI` copied from the chargeback; every other field of the entry is
that of the entry of its base transaction. -/
theorem BuildACHEntry_chargeback (L : AchLibrary) (c : ChargebackTransaction) :
    c.BuildACHEntry L =
        { c.BaseTransaction.BuildACHEntry L with
          Category := CategoryReturn
          TransactionCode := GLCredit
          AddendaRecordIndicator := 1
          Addenda99 := some
            { L.NewAddenda99 with
              ReturnCode := c.ReturnCode
              OriginalTrace := c.OriginalTrace
              AddendaInformation := c.AddendaInformation
              OriginalDFI := c.OriginalDepositoryInstitution } } ∧
      (c.BuildACHEntry L).Category = CategoryReturn ∧
      (c.BuildACHEntry L).TransactionCode = GLCredit ∧
      (c.BuildACHEntry L).AddendaRecordIndicator = 1 ∧
      (∃ a, (c.BuildACHEntry L).Addenda99 = some a ∧
        a.ReturnCode = c.ReturnCode ∧ a.OriginalTrace = c.OriginalTrace ∧
        a.AddendaInformation = c.AddendaInformation ∧
        a.OriginalDFI = c.OriginalDepositoryInstitution) ∧
      (c.BuildACHEntry L).ID = (c.BaseTransaction.BuildACHEntry L).ID ∧
      (c.BuildACHEntry L).RDFIIdentification =
        (c.BaseTransaction.BuildACHEntry L).RDFIIdentification ∧
      (c.BuildACHEntry L).CheckDigit = (c.BaseTransaction.BuildACHEntry L).CheckDigit ∧
      (c.BuildACHEntry L).DFIAccountNumber =
        (c.BaseTransaction.BuildACHEntry L).DFIAccountNumber ∧
      (c.BuildACHEntry L).Amount = (c.BaseTransaction.BuildACHEntry L).Amount ∧
      (c.BuildACHEntry L).IdentificationNumber =
        (c.BaseTransaction.BuildACHEntry L).IdentificationNumber ∧
      (c.BuildACHEntry L).IndividualName =
        (c.BaseTransaction.BuildACHEntry L).IndividualName ∧
      (c.BuildACHEntry L).DiscretionaryData =
        (c.BaseTransaction.BuildACHEntry L).DiscretionaryData ∧
      (c.BuildACHEntry L).TraceNumber = (c.BaseTransaction.BuildACHEntry L).TraceNumber := by
  refine ⟨rfl, rfl, rfl, rfl, ⟨_, rfl, rfl, rfl, rfl, rfl⟩, rfl, rfl, rfl, rfl, rfl, rfl, rfl, rfl,
    rfl⟩

/-! ## Descriptions -/

/-- C6: the description of a base transaction is four labelled lines (account
number, receiving company, original trace number, amount in decimal); a credit
and a debit put the line `Type: CREDIT` or `Type: DEBIT` before it; a
chargeback puts `Type: CHARGEBACK` before it and the four lines of its own
fields (return code, original trace, addenda information, original depository
institution) after it, in that order, each ended by a newline. -/
theorem String_labelled_lines (b : BaseTransaction) (c : ChargebackTransaction) :
    b.String =
        "Depository AccountNumber: " ++ b.DepositoryAccountNumber ++ "\n" ++
        "Receiving Company: " ++ b.ReceivingCompany ++ "\n" ++
        "Original Trace Number: " ++ b.OriginalTraceNumber ++ "\n" ++
        "Amount: " ++ decimal b.Amount ++ "\n" ∧
      CreditTransaction.String { BaseTransaction := b } = "Type: CREDIT\n" ++ b.String ∧
      DebitTransaction.String { BaseTransaction := b } = "Type: DEBIT\n" ++ b.String ∧
      c.String =
        "Type: CHARGEBACK\n" ++ c.BaseTransaction.String ++
        "Return Code: " ++ c.ReturnCode ++ "\n" ++
        "Original Trace: " ++ c.OriginalTrace ++ "\n" ++
        "Addenda Information: " ++ c.AddendaInformation ++ "\n" ++
        "Original Depository Institution: " ++ c.OriginalDepositoryInstitution ++ "\n" := by
  refine ⟨?_, ?_, ?_, ?_⟩
  · simp only [BaseTransaction.String, String.empty_append, String.append_assoc]
  · simp only [CreditTransaction.String, String.empty_append, String.append_assoc]
    rfl
  · simp only [DebitTransaction.String, String.empty_append, String.append_assoc]
    rfl
  · simp only [ChargebackTransaction.String, String.empty_append, String.append_assoc]
    rfl

end Transactions
